import Mathlib

/-!
Verification of the request-validation and data-projection layer of the
auth_api service (`src/dtos.rs`), shallowly embedded in Lean 4.

The embedding covers:
* the user record and role enumeration consumed by the projector,
* the `FilterUserDto` projection (`filter_user`, `filter_users`),
* the derived `validator`-crate checks of each DTO (length, email format,
  numeric range, `must_match`, custom role validation), collected as a
  list of field errors in declaration order,
* the serde wire names of each DTO field (rename attributes applied).

Timestamps (`DateTime<Utc>`) are modelled as an abstract numeric instant;
none of the properties below depend on their internal structure.
-/

/-- Model of `chrono::DateTime<Utc>`: an opaque instant. -/
abbrev DateTimeUtc := Nat

/-- Modelled from the spec: `UserRole` lives in `src/models.rs`, which is not
part of the provided source. The spec describes a closed enumeration
"{Admin, User, …other internal values reserved but not settable}", so one
reserved internal value is modelled as `Moderator`. -/
inductive UserRole where
  | Admin
  | User
  | Moderator
deriving DecidableEq, Repr

/-- Modelled from the spec: `UserRole::to_str` lives in `src/models.rs`, which
is not part of the provided source. The spec states the role "is rendered to
its canonical lowercase/string form for the wire" and gives the example
`Admin → "admin"`. -/
def UserRole.to_str : UserRole → String
  | .Admin => "admin"
  | .User => "user"
  | .Moderator => "moderator"

/-- Modelled from the spec: the `User` record lives in `src/models.rs`, which
is not part of the provided source. Spec section 3 lists its fields
(identifier, display name, email, role, verified flag, password secret,
creation timestamp, last-update timestamp); the `unwrap()` calls in
`FilterUserDto::filter_user` show that the two timestamps are `Option`s. -/
structure User where
  id : String
  name : String
  email : String
  role : UserRole
  verified : Bool
  password : String
  created_at : Option DateTimeUtc
  updated_at : Option DateTimeUtc
deriving DecidableEq, Repr

/-- The sanitized output projection (`FilterUserDto` in `src/dtos.rs`): id,
name, email, role as a string, verified flag and the two audit timestamps.
There is no password field. -/
structure FilterUserDto where
  id : String
  name : String
  email : String
  role : String
  verified : Bool
  created_at : DateTimeUtc
  updated_at : DateTimeUtc
deriving DecidableEq, Repr

/-- Outcome of running the projector on one record. `crashed` models a Rust
panic (`Option::unwrap` on `None`); `integrityError` models the
`MissingAuditTimestamp` / `ProjectionIntegrityError` value the spec says is
returned to the caller — the constructor exists so that the spec's claim can
be stated, the embedded code never produces it. -/
inductive ProjOutcome where
  | ok (dto : FilterUserDto)
  | crashed
  | integrityError
deriving DecidableEq, Repr

/-- `FilterUserDto::filter_user` from `src/dtos.rs`: copies id, name, email,
verified, the stringified role, and `unwrap`s both timestamps. When either
timestamp is `None` the `unwrap` panics, which the embedding reports as
`.crashed`. -/
def FilterUserDto.filter_user (user : User) : ProjOutcome :=
  match user.created_at, user.updated_at with
  | some c, some u =>
      .ok { id := user.id
            name := user.name
            email := user.email
            verified := user.verified
            role := user.role.to_str
            created_at := c
            updated_at := u }
  | _, _ => .crashed

/-- `FilterUserDto::filter_users` from `src/dtos.rs`:
`user.iter().map(FilterUserDto::filter_user).collect()`. A panic in any
element aborts the whole collection, modelled as `none`. -/
def FilterUserDto.filter_users : List User → Option (List FilterUserDto)
  | [] => some []
  | u :: rest =>
      match FilterUserDto.filter_user u with
      | .ok d => (FilterUserDto.filter_users rest).map (fun l => d :: l)
      | _ => none

/-- A single validation violation as produced by the `validator` derive: the
(wire) field name it is attached to, the rule code, and the declared message
when the annotation supplies one (`ValidationError { code, message }`). -/
structure FieldError where
  field : String
  code : String
  message : Option String
deriving DecidableEq, Repr

/-- The special (non-alphanumeric) characters admitted in the local part of an
email by the `validator` crate's user-part pattern
(dot, bang, hash, dollar, percent, ampersand, apostrophe, star, plus, slash,
equals, question mark, caret, underscore, backquote, left brace, bar, right
brace, tilde, hyphen); the bracket-like ones are given by code point. -/
def emailUserSpecialChars : List Char :=
  ['.', '!', '#', '$', '%', '&', Char.ofNat 39, '*', '+', '/', '=', '?',
   '^', '_', Char.ofNat 96, Char.ofNat 123, '|', Char.ofNat 125, '~', '-']

/-- One character of the email local part: ASCII letter (the pattern is
case-insensitive), digit, or one of the listed specials. -/
def isEmailUserChar (c : Char) : Bool :=
  c.isAlphanum || emailUserSpecialChars.contains c

/-- One DNS label of the email domain as matched by the crate's domain
pattern: 1 to 63 characters, first and last alphanumeric, interior characters
alphanumeric or hyphen. -/
def validEmailLabel : List Char → Bool
  | [] => false
  | [c] => c.isAlphanum
  | c :: rest =>
      c.isAlphanum && rest.length ≤ 62 &&
      (match rest.getLast? with
       | some l => l.isAlphanum
       | none => false) &&
      rest.dropLast.all (fun x => x.isAlphanum || x = '-')

/-- Split a character list at every dot, keeping empty pieces (mirrors how the
anchored domain pattern treats consecutive or trailing dots: they yield an
empty label, which fails). -/
def splitOnDot : List Char → List (List Char)
  | [] => [[]]
  | c :: rest =>
      let r := splitOnDot rest
      if c = '.' then [] :: r
      else
        match r with
        | h :: t => (c :: h) :: t
        | [] => [[c]]

/-- The crate's `validate_domain_part` restricted to its DNS-name pattern:
every dot-separated label is valid. The crate's two fallbacks — a bracketed
IP literal and IDN (punycode) conversion — are not modelled; no claim below
exercises a domain that reaches them, and for all-ASCII domains the punycode
fallback re-checks the same pattern. -/
def validEmailDomain (cs : List Char) : Bool :=
  (splitOnDot cs).all validEmailLabel

/-- Split a character list at its last `@`: returns (local part, domain part),
or `none` when no `@` occurs. Mirrors `rsplitn(2, '@')` in the crate. -/
def splitLastAt : List Char → Option (List Char × List Char)
  | [] => none
  | c :: rest =>
      match splitLastAt rest with
      | some (u, d) => some (c :: u, d)
      | none => if c = '@' then some ([], rest) else none

/-- The `validator` crate's `validate_email`: non-empty, contains an `@`;
the part before the last `@` is a non-empty run of admitted user characters
of at most 64 characters; the part after it is at most 255 characters and a
valid DNS name. -/
def validate_email (s : String) : Bool :=
  match splitLastAt s.toList with
  | none => false
  | some (user, domain) =>
      user.length ≤ 64 && domain.length ≤ 255 &&
      !user.isEmpty && user.all isEmailUserChar &&
      validEmailDomain domain

/-- `RegisterUserDto` from `src/dtos.rs` (request payload of registration). -/
structure RegisterUserDto where
  name : String
  email : String
  password : String
  password_confirm : String
deriving DecidableEq, Repr

/-- The derived `Validate` impl of `RegisterUserDto`: every declared rule of
every field is evaluated and every violation is collected, in declaration
order, keyed by the serde wire name of the field.
Rules: `name` length(min=1, "Name is Required"); `email` length(min=1,
"Email is required") and email("Email is invalid"); `password` length(min=8,
"Password should be at least 8 characters"); `password_confirm` (wire name
`passwordConfirm`) length(min=1, "Confirm password is required") and
must_match(other=password, "Passwords do not match"). -/
def RegisterUserDto.validate (d : RegisterUserDto) : List FieldError :=
  (if d.name.length < 1 then
    [⟨"name", "length", some "Name is Required"⟩] else [])
  ++ (if d.email.length < 1 then
    [⟨"email", "length", some "Email is required"⟩] else [])
  ++ (if validate_email d.email then [] else
    [⟨"email", "email", some "Email is invalid"⟩])
  ++ (if d.password.length < 8 then
    [⟨"password", "length", some "Password should be at least 8 characters"⟩] else [])
  ++ (if d.password_confirm.length < 1 then
    [⟨"passwordConfirm", "length", some "Confirm password is required"⟩] else [])
  ++ (if d.password_confirm ≠ d.password then
    [⟨"passwordConfirm", "must_match", some "Passwords do not match"⟩] else [])

/-- `RequestQueryDto` from `src/dtos.rs` (paged-list query). `usize` values
are modelled as `Nat`; an absent optional field is `none`. -/
structure RequestQueryDto where
  page : Option Nat
  limit : Option Nat
deriving DecidableEq, Repr

/-- The derived `Validate` impl of `RequestQueryDto`: `page` carries
range(min=1), `limit` carries range(min=1, max=50); an `Option` field is
skipped when absent; a range violation has code `range` and no declared
message. -/
def RequestQueryDto.validate (q : RequestQueryDto) : List FieldError :=
  (match q.page with
   | some p => if 1 ≤ p then [] else [⟨"page", "range", none⟩]
   | none => [])
  ++ (match q.limit with
      | some l => if 1 ≤ l ∧ l ≤ 50 then [] else [⟨"limit", "range", none⟩]
      | none => [])

/-- `RoleUpdateDto` from `src/dtos.rs`. -/
structure RoleUpdateDto where
  role : UserRole
deriving DecidableEq, Repr

/-- `validate_user_role` from `src/dtos.rs`: `Admin` and `User` are accepted,
any other role value yields `ValidationError::new("invalid_role")` (code
`invalid_role`, no message). The error pair is (code, message). -/
def validate_user_role (role : UserRole) : Except (String × Option String) Unit :=
  match role with
  | .Admin | .User => .ok ()
  | _ => .error ("invalid_role", none)

/-- The derived `Validate` impl of `RoleUpdateDto`: the custom function
`validate_user_role` runs on `role`; its error, if any, is attached to the
`role` field. -/
def RoleUpdateDto.validate (d : RoleUpdateDto) : List FieldError :=
  match validate_user_role d.role with
  | .ok _ => []
  | .error e => [⟨"role", e.1, e.2⟩]

/-- `UserPasswordUpdateDto` from `src/dtos.rs` (authenticated password
change). None of its fields carries a serde rename. -/
structure UserPasswordUpdateDto where
  new_password : String
  new_password_confirm : String
  old_password : String
deriving DecidableEq, Repr

/-- The derived `Validate` impl of `UserPasswordUpdateDto`, rules in
declaration order: `new_password` length(min=8, "Password must be at least 8
characters"); `new_password_confirm` length(min=8, "Confirm password must be
at least 8 characters") and must_match(other=new_password, "new passwords do
not match"); `old_password` length(min=1, "Old password is required"). -/
def UserPasswordUpdateDto.validate (d : UserPasswordUpdateDto) : List FieldError :=
  (if d.new_password.length < 8 then
    [⟨"new_password", "length", some "Password must be at least 8 characters"⟩] else [])
  ++ (if d.new_password_confirm.length < 8 then
    [⟨"new_password_confirm", "length", some "Confirm password must be at least 8 characters"⟩] else [])
  ++ (if d.new_password_confirm ≠ d.new_password then
    [⟨"new_password_confirm", "must_match", some "new passwords do not match"⟩] else [])
  ++ (if d.old_password.length < 1 then
    [⟨"old_password", "length", some "Old password is required"⟩] else [])

/-- `VerifyEmailQueryDto` from `src/dtos.rs`: the email-verification token. -/
structure VerifyEmailQueryDto where
  token : String
deriving DecidableEq, Repr

/-- The derived `Validate` impl of `VerifyEmailQueryDto`: `token` carries
length(min=1) whose declared message reads "Email is required". -/
def VerifyEmailQueryDto.validate (q : VerifyEmailQueryDto) : List FieldError :=
  if q.token.length < 1 then [⟨"token", "length", some "Email is required"⟩] else []

/-- Serde's naming rule for one field: the wire name is the `rename`
attribute's value when present, otherwise the Rust field name unchanged
(no struct in `src/dtos.rs` carries a container-level `rename_all`). -/
def serde_wire_name (rustName : String) (rename : Option String) : String :=
  rename.getD rustName

/-- Wire names of `RegisterUserDto`, field by field; only `password_confirm`
carries `#[serde(rename="passwordConfirm")]`. -/
def RegisterUserDto.wire_names : List String :=
  [serde_wire_name "name" none,
   serde_wire_name "email" none,
   serde_wire_name "password" none,
   serde_wire_name "password_confirm" (some "passwordConfirm")]

/-- Wire names of `FilterUserDto`, field by field; `created_at` and
`updated_at` carry `#[serde(rename="createdAt")]` / `…"updatedAt"`. -/
def FilterUserDto.wire_names : List String :=
  [serde_wire_name "id" none,
   serde_wire_name "name" none,
   serde_wire_name "email" none,
   serde_wire_name "role" none,
   serde_wire_name "verified" none,
   serde_wire_name "created_at" (some "createdAt"),
   serde_wire_name "updated_at" (some "updatedAt")]

/-- Wire names of `UserPasswordUpdateDto`: no field carries a serde rename. -/
def UserPasswordUpdateDto.wire_names : List String :=
  [serde_wire_name "new_password" none,
   serde_wire_name "new_password_confirm" none,
   serde_wire_name "old_password" none]

/-- `ResetPasswordRequestDto` from `src/dtos.rs` (password reset by token).
None of its fields carries a serde rename. -/
structure ResetPasswordRequestDto where
  token : String
  new_password : String
  new_password_confirm : String
deriving DecidableEq, Repr

/-- Wire names of `ResetPasswordRequestDto`: no field carries a serde
rename. -/
def ResetPasswordRequestDto.wire_names : List String :=
  [serde_wire_name "token" none,
   serde_wire_name "new_password" none,
   serde_wire_name "new_password_confirm" none]

example : validate_email "ann@example.com" = true := by decide
example : validate_email "" = false := by decide

/-- Membership in a conditional singleton: the error is reported exactly when
the rule's condition fails. -/
theorem mem_ite_singleton {α : Type} {c : Prop} [Decidable c] {a x : α} :
    (a ∈ if c then [x] else ([] : List α)) ↔ c ∧ a = x := by
  split <;> simp_all

/-- Membership in a negated conditional singleton. -/
theorem mem_ite_nil_singleton {α : Type} {c : Prop} [Decidable c] {a x : α} :
    (a ∈ if c then ([] : List α) else [x]) ↔ ¬c ∧ a = x := by
  split <;> simp_all

/-- C1 counterexample: the claim that a record with an absent timestamp makes
`filter_user` return the named `MissingAuditTimestamp` / integrity error to
the caller is false — at the concrete record below (update timestamp absent)
the projector panics instead of returning the error value. -/
theorem C1_integrity_error_counterexample :
    ¬ (∀ u : User, (u.created_at = none ∨ u.updated_at = none) →
        FilterUserDto.filter_user u = ProjOutcome.integrityError) := by
  intro h
  have h1 := h { id := "u1", name := "Ann", email := "ann@example.com",
                 role := UserRole.Admin, verified := true, password := "pw",
                 created_at := some 1, updated_at := none } (Or.inr rfl)
  simp [FilterUserDto.filter_user] at h1

/-- C1 (amended): on a record in which the creation or the update timestamp
is absent, `filter_user` panics (`unwrap` on `None`) — it produces no output
at all and never defaults the timestamp, but the failure is a crash, not a
named error value returned to the caller. -/
theorem C1_missing_timestamp_crashes (u : User)
    (h : u.created_at = none ∨ u.updated_at = none) :
    FilterUserDto.filter_user u = ProjOutcome.crashed := by
  cases hc : u.created_at <;> cases hupd : u.updated_at <;>
    simp_all [FilterUserDto.filter_user]

/-- Witness for C1 (amended) at a concrete record with a missing update
timestamp. -/
theorem C1_missing_timestamp_crashes_witness :
    FilterUserDto.filter_user
      { id := "u1", name := "Ann", email := "ann@example.com",
        role := UserRole.Admin, verified := true, password := "pw",
        created_at := some 1, updated_at := none } = ProjOutcome.crashed :=
  C1_missing_timestamp_crashes _ (Or.inr rfl)

/-- C3: on a record with both timestamps present, `filter_user` returns
exactly the projection {id, name, email, role rendered as its canonical
string, verified, created_at, updated_at}; moreover the result is unchanged
under any value of the record's password field, so the secret can never
reach the output. -/
theorem C3_projection_fields (u : User) (c t : DateTimeUtc)
    (hc : u.created_at = some c) (ht : u.updated_at = some t) :
    FilterUserDto.filter_user u =
      ProjOutcome.ok { id := u.id, name := u.name, email := u.email,
                       role := u.role.to_str, verified := u.verified,
                       created_at := c, updated_at := t } ∧
    ∀ pw : String,
      FilterUserDto.filter_user { u with password := pw } =
        FilterUserDto.filter_user u := by
  constructor
  · simp [FilterUserDto.filter_user, hc, ht]
  · intro pw
    simp [FilterUserDto.filter_user]

/-- Witness for C3 at the spec's example record (role `Admin` renders as the
string "admin", no password data in the output, password-independence checked
at a second secret value). -/
theorem C3_projection_fields_witness :
    FilterUserDto.filter_user
      { id := "u1", name := "Ann", email := "ann@example.com",
        role := UserRole.Admin, verified := true, password := "secret",
        created_at := some 1, updated_at := some 2 } =
      ProjOutcome.ok { id := "u1", name := "Ann", email := "ann@example.com",
                       role := "admin", verified := true,
                       created_at := 1, updated_at := 2 } ∧
    FilterUserDto.filter_user
      { id := "u1", name := "Ann", email := "ann@example.com",
        role := UserRole.Admin, verified := true, password := "other",
        created_at := some 1, updated_at := some 2 } =
      FilterUserDto.filter_user
      { id := "u1", name := "Ann", email := "ann@example.com",
        role := UserRole.Admin, verified := true, password := "secret",
        created_at := some 1, updated_at := some 2 } :=
  ⟨(C3_projection_fields _ 1 2 rfl rfl).1,
   (C3_projection_fields
      { id := "u1", name := "Ann", email := "ann@example.com",
        role := UserRole.Admin, verified := true, password := "secret",
        created_at := some 1, updated_at := some 2 } 1 2 rfl rfl).2 "other"⟩

/-- C9: on a finite list of records that all carry both timestamps,
`filter_users` succeeds with a list of the same length related element by
element, in order, to the inputs by `filter_user` — a 1:1 order-preserving
map with nothing filtered out. -/
theorem C9_filter_users_is_ordered_map (users : List User)
    (h : ∀ u ∈ users, u.created_at ≠ none ∧ u.updated_at ≠ none) :
    ∃ l, FilterUserDto.filter_users users = some l ∧
      l.length = users.length ∧
      List.Forall₂ (fun u d => FilterUserDto.filter_user u = ProjOutcome.ok d)
        users l := by
  induction users with
  | nil => exact ⟨[], rfl, rfl, List.Forall₂.nil⟩
  | cons u rest ih =>
    obtain ⟨hu1, hu2⟩ := h u (List.mem_cons_self u rest)
    obtain ⟨l, hl, hlen, hf⟩ := ih (fun v hv => h v (List.mem_cons_of_mem u hv))
    cases hc : u.created_at with
    | none => exact absurd hc hu1
    | some c =>
      cases hupd : u.updated_at with
      | none => exact absurd hupd hu2
      | some t =>
        refine ⟨{ id := u.id, name := u.name, email := u.email,
                  role := u.role.to_str, verified := u.verified,
                  created_at := c, updated_at := t } :: l, ?_, ?_, ?_⟩
        · simp [FilterUserDto.filter_users, FilterUserDto.filter_user, hc, hupd, hl]
        · simp [hlen]
        · exact List.Forall₂.cons (by simp [FilterUserDto.filter_user, hc, hupd]) hf

/-- Witness for C9 at a concrete two-record list. -/
theorem C9_filter_users_is_ordered_map_witness :
    ∃ l, FilterUserDto.filter_users
      [{ id := "u1", name := "Ann", email := "ann@example.com",
         role := UserRole.Admin, verified := true, password := "pw",
         created_at := some 1, updated_at := some 2 },
       { id := "u2", name := "Bob", email := "bob@example.com",
         role := UserRole.User, verified := false, password := "pw2",
         created_at := some 3, updated_at := some 4 }] = some l ∧
      l.length = 2 ∧
      List.Forall₂ (fun u d => FilterUserDto.filter_user u = ProjOutcome.ok d)
        [{ id := "u1", name := "Ann", email := "ann@example.com",
           role := UserRole.Admin, verified := true, password := "pw",
           created_at := some 1, updated_at := some 2 },
         { id := "u2", name := "Bob", email := "bob@example.com",
           role := UserRole.User, verified := false, password := "pw2",
           created_at := some 3, updated_at := some 4 }] l :=
  C9_filter_users_is_ordered_map _ (by decide)

/-- C4: whenever the registration password and its confirmation differ, the
collected errors include the `passwordConfirm` must-match violation with the
message "Passwords do not match"; when they are equal that violation is
absent; and at the spec's example input the validation fails with exactly
that one error. -/
theorem C4_password_confirm_mismatch (d : RegisterUserDto) :
    (d.password_confirm ≠ d.password →
      (⟨"passwordConfirm", "must_match", some "Passwords do not match"⟩ : FieldError)
        ∈ d.validate) ∧
    (d.password_confirm = d.password →
      (⟨"passwordConfirm", "must_match", some "Passwords do not match"⟩ : FieldError)
        ∉ d.validate) ∧
    RegisterUserDto.validate ⟨"Ann", "ann@example.com", "longpass1", "longpass2"⟩ =
      [⟨"passwordConfirm", "must_match", some "Passwords do not match"⟩] := by
  refine ⟨?_, ?_, by decide⟩
  · intro h
    simp [RegisterUserDto.validate, List.mem_append, mem_ite_singleton,
          mem_ite_nil_singleton, h]
  · intro h
    simp [RegisterUserDto.validate, List.mem_append, mem_ite_singleton,
          mem_ite_nil_singleton, h]

/-- Witness for C4 at the spec's example input. -/
theorem C4_password_confirm_mismatch_witness :
    (⟨"passwordConfirm", "must_match", some "Passwords do not match"⟩ : FieldError)
      ∈ RegisterUserDto.validate ⟨"Ann", "ann@example.com", "longpass1", "longpass2"⟩ ∧
    (⟨"passwordConfirm", "must_match", some "Passwords do not match"⟩ : FieldError)
      ∉ RegisterUserDto.validate ⟨"Ann", "ann@example.com", "longpass1", "longpass1"⟩ :=
  ⟨(C4_password_confirm_mismatch ⟨"Ann", "ann@example.com", "longpass1", "longpass2"⟩).1
      (by decide),
   (C4_password_confirm_mismatch ⟨"Ann", "ann@example.com", "longpass1", "longpass1"⟩).2.1
      rfl⟩

/-- C5: role-update validation passes exactly on `Admin` and `User`, and on
any other role value it fails with precisely the role-specific
`invalid_role` error (distinct from a generic membership code) on the `role`
field. -/
theorem C5_role_update_membership (d : RoleUpdateDto) :
    (d.validate = [] ↔ d.role = UserRole.Admin ∨ d.role = UserRole.User) ∧
    (d.validate = [⟨"role", "invalid_role", none⟩] ↔
      ¬ (d.role = UserRole.Admin ∨ d.role = UserRole.User)) := by
  obtain ⟨r⟩ := d
  cases r <;> simp [RoleUpdateDto.validate, validate_user_role]

/-- C6: the validation result is the complete set of violations — a field
error belongs to the collected list exactly when its rule's condition is
violated, for every declared rule of every field, each tagged with the
originating (wire) field name and its declared message verbatim; shown for
the registration and password-update schemas. -/
theorem C6_complete_violation_list (d : RegisterUserDto)
    (p : UserPasswordUpdateDto) (e : FieldError) :
    (e ∈ d.validate ↔
      (d.name.length < 1 ∧ e = ⟨"name", "length", some "Name is Required"⟩) ∨
      (d.email.length < 1 ∧ e = ⟨"email", "length", some "Email is required"⟩) ∨
      (¬ validate_email d.email = true ∧
        e = ⟨"email", "email", some "Email is invalid"⟩) ∨
      (d.password.length < 8 ∧
        e = ⟨"password", "length", some "Password should be at least 8 characters"⟩) ∨
      (d.password_confirm.length < 1 ∧
        e = ⟨"passwordConfirm", "length", some "Confirm password is required"⟩) ∨
      (d.password_confirm ≠ d.password ∧
        e = ⟨"passwordConfirm", "must_match", some "Passwords do not match"⟩)) ∧
    (e ∈ p.validate ↔
      (p.new_password.length < 8 ∧
        e = ⟨"new_password", "length", some "Password must be at least 8 characters"⟩) ∨
      (p.new_password_confirm.length < 8 ∧
        e = ⟨"new_password_confirm", "length",
             some "Confirm password must be at least 8 characters"⟩) ∨
      (p.new_password_confirm ≠ p.new_password ∧
        e = ⟨"new_password_confirm", "must_match", some "new passwords do not match"⟩) ∨
      (p.old_password.length < 1 ∧
        e = ⟨"old_password", "length", some "Old password is required"⟩)) := by
  constructor
  · simp [RegisterUserDto.validate, List.mem_append, mem_ite_singleton,
          mem_ite_nil_singleton]
  · simp [UserPasswordUpdateDto.validate, List.mem_append, mem_ite_singleton]

/-- C7: the cross-field must-match rule is evaluated independently of the
referenced field's own rules — when the referenced password fails its length
rule and the confirmation differs from it, both the password length error and
the confirmation mismatch error appear simultaneously; shown for the
registration and password-update schemas. -/
theorem C7_cross_field_rule_independent (d : RegisterUserDto)
    (p : UserPasswordUpdateDto)
    (hd1 : d.password.length < 8) (hd2 : d.password_confirm ≠ d.password)
    (hp1 : p.new_password.length < 8)
    (hp2 : p.new_password_confirm ≠ p.new_password) :
    (⟨"password", "length", some "Password should be at least 8 characters"⟩
      : FieldError) ∈ d.validate ∧
    (⟨"passwordConfirm", "must_match", some "Passwords do not match"⟩
      : FieldError) ∈ d.validate ∧
    (⟨"new_password", "length", some "Password must be at least 8 characters"⟩
      : FieldError) ∈ p.validate ∧
    (⟨"new_password_confirm", "must_match", some "new passwords do not match"⟩
      : FieldError) ∈ p.validate := by
  refine ⟨?_, ?_, ?_, ?_⟩ <;>
    simp [RegisterUserDto.validate, UserPasswordUpdateDto.validate,
          List.mem_append, mem_ite_singleton, mem_ite_nil_singleton, hd1, hd2, hp1, hp2]

/-- Witness for C7: an empty new/registration password (failing the length
rule) together with a non-empty differing confirmation. -/
theorem C7_cross_field_rule_independent_witness :
    (⟨"password", "length", some "Password should be at least 8 characters"⟩
      : FieldError) ∈ RegisterUserDto.validate ⟨"Ann", "ann@example.com", "", "x"⟩ ∧
    (⟨"passwordConfirm", "must_match", some "Passwords do not match"⟩
      : FieldError) ∈ RegisterUserDto.validate ⟨"Ann", "ann@example.com", "", "x"⟩ ∧
    (⟨"new_password", "length", some "Password must be at least 8 characters"⟩
      : FieldError) ∈ UserPasswordUpdateDto.validate ⟨"", "x", "old"⟩ ∧
    (⟨"new_password_confirm", "must_match", some "new passwords do not match"⟩
      : FieldError) ∈ UserPasswordUpdateDto.validate ⟨"", "x", "old"⟩ :=
  C7_cross_field_rule_independent ⟨"Ann", "ann@example.com", "", "x"⟩ ⟨"", "x", "old"⟩
    (by decide) (by decide) (by decide) (by decide)

/-- C8: for a paged query, a range error on `limit` is collected exactly when
a present limit lies outside [1, 50], and a range error on `page` exactly
when a present page is below 1; absent fields are never checked. -/
theorem C8_paged_query_ranges (q : RequestQueryDto) :
    ((⟨"limit", "range", none⟩ : FieldError) ∈ q.validate ↔
      ∃ l, q.limit = some l ∧ ¬ (1 ≤ l ∧ l ≤ 50)) ∧
    ((⟨"page", "range", none⟩ : FieldError) ∈ q.validate ↔
      ∃ p, q.page = some p ∧ p < 1) := by
  obtain ⟨pg, lim⟩ := q
  cases pg <;> cases lim <;>
    simp [RequestQueryDto.validate, List.mem_append, mem_ite_singleton,
          mem_ite_nil_singleton]

/-- C10: an empty email-verification token fails validation on the `token`
field, and the declared message attached to it reads "Email is required" —
the message names the email field although the failing field is the token. -/
theorem C10_empty_token_mismatched_message (q : VerifyEmailQueryDto)
    (h : q.token = "") :
    q.validate = [⟨"token", "length", some "Email is required"⟩] := by
  obtain ⟨t⟩ := q
  simp only at h
  subst h
  decide

/-- Witness for C10 at the empty token. -/
theorem C10_empty_token_mismatched_message_witness :
    VerifyEmailQueryDto.validate ⟨""⟩ =
      [⟨"token", "length", some "Email is required"⟩] :=
  C10_empty_token_mismatched_message ⟨""⟩ rfl

/-- C2 counterexample: the claim that every DTO serializes with camelCase
wire names — in particular that the password-update and reset-password
confirmation fields serialize as `newPasswordConfirm` — is false: those DTOs
carry no serde rename, so the wire name is the snake_case
`new_password_confirm`, and `newPasswordConfirm` appears nowhere. -/
theorem C2_camel_case_counterexample :
    "newPasswordConfirm" ∉ UserPasswordUpdateDto.wire_names ∧
    "new_password_confirm" ∈ UserPasswordUpdateDto.wire_names ∧
    "newPasswordConfirm" ∉ ResetPasswordRequestDto.wire_names ∧
    "new_password_confirm" ∈ ResetPasswordRequestDto.wire_names := by
  decide

/-- C2 (amended): camelCase renames exist only where declared — registration
serializes its confirmation as `passwordConfirm` and the projection
serializes its timestamps as `createdAt` / `updatedAt`, while the
password-update and reset-password DTOs keep their snake_case field names on
the wire. -/
theorem C2_wire_names :
    RegisterUserDto.wire_names = ["name", "email", "password", "passwordConfirm"] ∧
    FilterUserDto.wire_names =
      ["id", "name", "email", "role", "verified", "createdAt", "updatedAt"] ∧
    UserPasswordUpdateDto.wire_names =
      ["new_password", "new_password_confirm", "old_password"] ∧
    ResetPasswordRequestDto.wire_names =
      ["token", "new_password", "new_password_confirm"] := by
  decide
